import Mathlib

/-!
Verification of the restart-coordination layer of GROMACS
(`src/gromacs/mdrunutility/handlerestart.cpp`).

We shallowly embed the decision procedure `chooseStartingBehavior`, the
validator `checkOutputFile`, the preparation routine `prepareForAppending`
(with an explicit event trace recording locks, validations, the log seek
and truncations), and the cross-process error-coordination logic of
`handleRestart`.

External collaborators (filesystem existence checks, checkpoint reading,
md5 computation, locking, truncation, collective sums) are modelled as
explicit environment records, so every embedded function is a pure,
executable Lean function.  Each `GMX_THROW` site of the C++ source is
mapped to a dedicated constructor of `GmxError`, carrying the data that
the thrown message would mention.
-/

namespace HandleRestart

/-- `AppendingBehavior` from mdrunoptions.h: the user's requested intent. -/
inductive AppendingBehavior where
  | Appending
  | NoAppending
  | Auto
deriving DecidableEq, Repr

/-- `StartingBehavior` from handlerestart.h: the decision outcome. -/
inductive StartingBehavior where
  | NewSimulation
  | RestartWithAppending
  | RestartWithoutAppending
deriving DecidableEq, Repr

/-- `CheckpointHeaderContents` (the fields used by handlerestart.cpp).
In the C++ source `double_prec` is an `int` compared against the build
flag `GMX_DOUBLE`; we model both as `Bool`. -/
structure CheckpointHeaderContents where
  simulation_part : Int
  file_version : Int
  double_prec : Bool
deriving DecidableEq, Repr

/-- `gmx_file_position_t` from checkpoint.h: one output-file record stored
in the checkpoint.  The 16-byte md5 digest is modelled as a list of bytes. -/
structure gmx_file_position_t where
  filename : String
  offset : Int
  checksumSize : Int
  checksum : List Nat
deriving DecidableEq, Repr

/-- `t_filenm` from commandline/filenm.h (the fields handlerestart.cpp
reads).  `ftp` is the file-type index; `is_output` models the
`is_output(&fnm[i])` predicate of filenm.cpp (whose definition is not part
of the sources under verification), recorded as a per-entry field. -/
structure t_filenm where
  ftp : Nat
  opt : String
  is_output : Bool
  filenames : List String
deriving DecidableEq, Repr

/-- The file-type index of log files (`efLOG`). -/
def efLOG : Nat := 0

/-- Every `GMX_THROW` / `gmx_fatal` / `GMX_RELEASE_ASSERT` failure site of
handlerestart.cpp, one constructor per site, carrying the data the thrown
message reports.  `CheckpointNotFoundError`, `MissingOutputFilesError`,
`LargeFileError`, `PrecisionMismatchError`, `PartSuffixError`,
`ChecksumReadError` and `ChecksumMismatchError` are `InconsistentInputError`s
in the C++ source; `CheckpointOpenError`, the lock errors, `SeekError` and
`TruncateError` are `FileIOError`s. -/
inductive GmxError where
  | CheckpointNotFoundError
  | CheckpointOpenError (checkpointFilename : String)
  | MissingOutputFilesError (checkpointFilename : String)
      (present : List String) (missing : List String)
  | LargeFileError (filename : String)
  | PrecisionMismatchError (previousIsDouble : Bool) (buildIsDouble : Bool)
  | PartSuffixError
  | ChecksumReadError (filename : String)
  | ChecksumMismatchError (filename : String)
  | LockUnsupportedError
  | LockHeldError (filename : String)
  | LockOtherError (filename : String) (errnoText : String)
  | SeekError (errnoText : String)
  | TruncateError (filename : String)
  | FatalError (msg : String)
  | AssertionFailure (msg : String)
  | ParallelConsistencyError (msg : String)
deriving DecidableEq, Repr

deriving instance DecidableEq for Except

/-- `exist_output_file` (handlerestart.cpp, lines 92-107): true iff
`fnm_cp` matches the first name of some output entry of `fnm` and the file
exists on disk (`gmx_fexist`, modelled by the predicate `fexist`). -/
def exist_output_file (fnm_cp : String) (fnm : List t_filenm) (fexist : String → Bool) : Bool :=
  (fnm.any fun f => f.is_output && f.filenames.head? == some fnm_cp) && fexist fnm_cp

/-- Default-constructed `CheckpointHeaderContents`, as returned on the
paths of `chooseStartingBehavior` that never read a checkpoint. -/
def emptyHeaderContents : CheckpointHeaderContents :=
  { simulation_part := 0, file_version := 0, double_prec := false }

/-- The environment of external collaborators consulted by
`chooseStartingBehavior`: command-line state (`opt2bSet`/`opt2fn` for
`-cpi`), filesystem existence (`gmx_fexist`), whether `gmx_fio_open`
succeeds, the result of `read_checkpoint_simulation_part_and_filenames`,
whether `Path::extensionMatches` accepts the first record as a log file,
the `hasSuffixFromNoAppend` predicate from checkpoint.h, and the build
flag `GMX_DOUBLE`. -/
structure Env where
  cpiSet : Bool
  checkpointFilename : String
  fexist : String → Bool
  openOk : Bool
  headerContents : CheckpointHeaderContents
  outputFiles : List gmx_file_position_t
  logExtensionMatches : Bool
  hasSuffixFromNoAppend : String → Bool
  gmxDouble : Bool

/-- The output-file names that `throwBecauseOfMissingOutputFiles` lists as
"present under the current run's names and existing on disk". -/
def presentOutputFiles (outputFiles : List gmx_file_position_t) (fnm : List t_filenm)
    (fexist : String → Bool) : List String :=
  (outputFiles.filter fun o => exist_output_file o.filename fnm fexist).map (·.filename)

/-- The output-file names that `throwBecauseOfMissingOutputFiles` lists as
"not present or named differently". -/
def missingOutputFiles (outputFiles : List gmx_file_position_t) (fnm : List t_filenm)
    (fexist : String → Bool) : List String :=
  (outputFiles.filter fun o => !exist_output_file o.filename fnm fexist).map (·.filename)

/-- The `numFilesMissing` count of `chooseStartingBehavior` (line 231):
how many checkpoint records fail `exist_output_file`. -/
def numFilesMissing (outputFiles : List gmx_file_position_t) (fnm : List t_filenm)
    (fexist : String → Bool) : Nat :=
  outputFiles.countP fun o => !exist_output_file o.filename fnm fexist

/-- The final fall-through of `chooseStartingBehavior` (lines 311-312):
`GMX_RELEASE_ASSERT(appendingBehavior != AppendingBehavior::Appending)`
followed by returning `RestartWithoutAppending`. -/
def fallThroughReturn (appendingBehavior : AppendingBehavior)
    (headerContents : CheckpointHeaderContents) (outputFiles : List gmx_file_position_t) :
    Except GmxError (StartingBehavior × CheckpointHeaderContents × List gmx_file_position_t) :=
  if appendingBehavior = AppendingBehavior.Appending then
    Except.error (GmxError.AssertionFailure "Logic error in appending")
  else
    Except.ok (StartingBehavior.RestartWithoutAppending, headerContents, outputFiles)

/-- The appendability evaluation of `chooseStartingBehavior`
(lines 227-309), entered only when `appendingBehavior != NoAppending`,
with the checkpoint already read: missing-file check, negative-offset
check (the loop throws at the first offending record), then the
precision / part-suffix / success cascade. -/
def evaluateAppendability (appendingBehavior : AppendingBehavior)
    (fnm : List t_filenm) (env : Env) (logFilename : String) :
    Except GmxError (StartingBehavior × CheckpointHeaderContents × List gmx_file_position_t) :=
  if numFilesMissing env.outputFiles fnm env.fexist ≠ 0 then
    Except.error (GmxError.MissingOutputFilesError env.checkpointFilename
      (presentOutputFiles env.outputFiles fnm env.fexist)
      (missingOutputFiles env.outputFiles fnm env.fexist))
  else
    match env.outputFiles.find? (fun o => o.offset < 0) with
    | some o => Except.error (GmxError.LargeFileError o.filename)
    | none =>
      if env.headerContents.file_version ≥ 13 ∧ env.headerContents.double_prec ≠ env.gmxDouble then
        if appendingBehavior = AppendingBehavior.Appending then
          Except.error (GmxError.PrecisionMismatchError env.headerContents.double_prec env.gmxDouble)
        else
          fallThroughReturn appendingBehavior env.headerContents env.outputFiles
      else if env.hasSuffixFromNoAppend logFilename then
        if appendingBehavior = AppendingBehavior.Appending then
          Except.error GmxError.PartSuffixError
        else
          fallThroughReturn appendingBehavior env.headerContents env.outputFiles
      else
        Except.ok (StartingBehavior.RestartWithAppending, env.headerContents, env.outputFiles)

/-- `chooseStartingBehavior` (handlerestart.cpp, lines 177-313). -/
def chooseStartingBehavior (appendingBehavior : AppendingBehavior)
    (fnm : List t_filenm) (env : Env) :
    Except GmxError (StartingBehavior × CheckpointHeaderContents × List gmx_file_position_t) :=
  if !env.cpiSet then
    Except.ok (StartingBehavior.NewSimulation, emptyHeaderContents, [])
  else if !env.fexist env.checkpointFilename then
    if appendingBehavior = AppendingBehavior.Appending then
      Except.error GmxError.CheckpointNotFoundError
    else
      Except.ok (StartingBehavior.NewSimulation, emptyHeaderContents, [])
  else if !env.openOk then
    Except.error (GmxError.CheckpointOpenError env.checkpointFilename)
  else
    match env.outputFiles with
    | [] =>
      Except.error (GmxError.AssertionFailure
        "The checkpoint file or its reading is broken, as no output file information is stored in it")
    | logRecord :: _ =>
      if !env.logExtensionMatches then
        Except.error (GmxError.AssertionFailure
          "The first output file must be a log file")
      else if appendingBehavior ≠ AppendingBehavior.NoAppending then
        evaluateAppendability appendingBehavior fnm env logRecord.filename
      else
        fallThroughReturn appendingBehavior env.headerContents env.outputFiles

/-- `checkOutputFile` (handlerestart.cpp, lines 316-355).  The md5
computation `gmx_fio_get_file_md5(fileToCheck, offset, &digest)` is
modelled by `md5 : Int → Int × List Nat`, mapping the record's offset to
the returned byte count and the computed digest.  The C++ source guards
both the read check and the digest comparison by
`outputfile.checksumSize != -1`; when `checksumSize == -1` neither
happens and the function returns normally. -/
def checkOutputFile (md5 : Int → Int × List Nat) (outputfile : gmx_file_position_t) :
    Except GmxError Unit :=
  if outputfile.checksumSize ≠ -1 then
    let digest := md5 outputfile.offset
    if digest.1 ≠ outputfile.checksumSize then
      Except.error (GmxError.ChecksumReadError outputfile.filename)
    else if digest.2 ≠ outputfile.checksum then
      Except.error (GmxError.ChecksumMismatchError outputfile.filename)
    else
      Except.ok ()
  else
    Except.ok ()

/-- The observable filesystem actions of `prepareForAppending`, in the
order performed: acquiring the log-file lock, a successful validation
(`checkOutputFile` returning normally), the seek of the open log handle
to its checkpointed offset, and the truncation of a non-log file to its
checkpointed offset. -/
inductive FileEvent where
  | lock (filename : String)
  | validate (filename : String)
  | seekLog (filename : String) (offset : Int)
  | truncate (filename : String) (offset : Int)
deriving DecidableEq, Repr

/-- Outcome of the lock attempt in `lockLogFile` (lines 361-406):
success, or failure with `errno` distinguishing `ENOSYS`,
`EACCES`/`EAGAIN`, and anything else. -/
inductive LockResult where
  | success
  | unsupported
  | alreadyLocked
  | otherFailure (errnoText : String)
deriving DecidableEq, Repr

/-- `lockLogFile` (handlerestart.cpp, lines 361-406), with the OS lock
outcome supplied by the environment. -/
def lockLogFile (result : LockResult) (logFilename : String) : Except GmxError Unit :=
  match result with
  | LockResult.success => Except.ok ()
  | LockResult.unsupported => Except.error GmxError.LockUnsupportedError
  | LockResult.alreadyLocked => Except.error (GmxError.LockHeldError logFilename)
  | LockResult.otherFailure e => Except.error (GmxError.LockOtherError logFilename e)

/-- Environment of `prepareForAppending`: the build flags `GMX_FAHCORE`
and `GMX_NATIVE_WINDOWS`, the OS outcome of the lock attempt, per-file md5
results (`gmx_fio_get_file_md5` applied to the named file at a given
offset), whether the log seek succeeds, whether `gmx_fio_open(..., "r+")`
succeeds for each file, and whether `gmx_truncate` succeeds for each
file. -/
structure PrepEnv where
  gmxFahcore : Bool
  gmxNativeWindows : Bool
  lockResult : LockResult
  md5 : String → Int → Int × List Nat
  seekOk : Bool
  openOk : String → Bool
  truncateOk : String → Bool

/-- The loop of `prepareForAppending` over the non-log records
(lines 445-464): open each file, validate it (`checkOutputFile`), close
it, then truncate it to its checkpointed offset — truncation being
skipped on native Windows, and `gmx_fio_open` failure being a
`gmx_fatal` abort.  Returns the trace of events performed and the error
that stopped the loop, if any. -/
def prepareLoop (env : PrepEnv) : List gmx_file_position_t → List FileEvent × Option GmxError
  | [] => ([], none)
  | f :: rest =>
    if env.openOk f.filename then
      match checkOutputFile (env.md5 f.filename) f with
      | Except.error e => ([], some e)
      | Except.ok _ =>
        if env.gmxNativeWindows then
          let r := prepareLoop env rest
          (FileEvent.validate f.filename :: r.1, r.2)
        else if env.truncateOk f.filename then
          let r := prepareLoop env rest
          (FileEvent.validate f.filename :: FileEvent.truncate f.filename f.offset :: r.1, r.2)
        else
          ([FileEvent.validate f.filename], some (GmxError.TruncateError f.filename))
    else
      ([], some (GmxError.FatalError f.filename))

/-- `prepareForAppending` (handlerestart.cpp, lines 417-465), returning
the trace of filesystem events performed and the error that aborted it,
if any.  The log record (index 0) is locked, validated and seeked first;
then `prepareLoop` handles the remaining records.  Callers guarantee a
non-empty record list (asserted in `chooseStartingBehavior`); on `[]` the
C++ indexing would be out of bounds, and we return the empty trace. -/
def prepareForAppending (env : PrepEnv) (outputFiles : List gmx_file_position_t) :
    List FileEvent × Option GmxError :=
  if env.gmxFahcore then
    ([], none)
  else
    match outputFiles with
    | [] => ([], none)
    | logOutputFile :: rest =>
      match lockLogFile env.lockResult logOutputFile.filename with
      | Except.error e => ([], some e)
      | Except.ok _ =>
        match checkOutputFile (env.md5 logOutputFile.filename) logOutputFile with
        | Except.error e => ([FileEvent.lock logOutputFile.filename], some e)
        | Except.ok _ =>
          if env.seekOk then
            let r := prepareLoop env rest
            (FileEvent.lock logOutputFile.filename ::
              FileEvent.validate logOutputFile.filename ::
              FileEvent.seekLog logOutputFile.filename logOutputFile.offset :: r.1, r.2)
          else
            ([FileEvent.lock logOutputFile.filename,
              FileEvent.validate logOutputFile.filename],
              some (GmxError.SeekError "seek failed"))

/-- One rank of `handleRestart` (lines 470-529): whether it is the master
of its simulation (`MASTER(cr)`), and — for the master — the outcome of
the try block around deciding and preparing (the chosen
`StartingBehavior`, or the exception it raised).  Non-master ranks never
run the block, so their `tryResult` field is unused. -/
structure Rank where
  isMaster : Bool
  tryResult : Except GmxError StartingBehavior

/-- `numErrorsFound` on one rank after the catch clause (lines 524-528):
an error raised inside the master-only block is caught locally and
becomes a count of 1; otherwise the count stays 0. -/
def localErrorCount (r : Rank) : Nat :=
  if r.isMaster then
    match r.tryResult with
    | Except.error _ => 1
    | Except.ok _ => 0
  else 0

/-- `exceptionPtr` on one rank: populated exactly when this rank's
master-only block raised (lines 524-528). -/
def localExceptionPtr (r : Rank) : Option GmxError :=
  if r.isMaster then
    match r.tryResult with
    | Except.error e => some e
    | Except.ok _ => none
  else none

/-- The combined error count after the collective sums of
`gmx_sumi` / `gmx_sumi_sim` / `gmx_bcast` (lines 537-548): the sum of all
ranks' local counts, observed identically by every rank. -/
def combinedErrorCount (group : List Rank) : Nat :=
  (group.map localErrorCount).sum

/-- The coordinated outcome of `handleRestart` on one rank
(lines 550-567): if the combined error count is nonzero, the rank
re-raises its own stored exception if it has one and otherwise raises
`ParallelConsistencyError`; if the count is zero, the rank returns the
broadcast `StartingBehavior`. -/
def handleRestartOutcome (group : List Rank) (r : Rank)
    (broadcastDecision : StartingBehavior) : Except GmxError StartingBehavior :=
  if combinedErrorCount group > 0 then
    match localExceptionPtr r with
    | some e => Except.error e
    | none =>
      Except.error (GmxError.ParallelConsistencyError
        "Another MPI rank encountered an exception")
  else
    Except.ok broadcastDecision

/-- Left-pad a decimal string with zeros to width `w`, as `printf`'s
zero-flag does within the digit field. -/
def zeroPad (w : Nat) (s : String) : String :=
  if s.length < w then String.mk (List.replicate (w - s.length) '0') ++ s else s

/-- `formatString(".part%04d", n)` (handlerestart.cpp, line 517): the
standard C semantics of `%04d` — the decimal rendering of `n`, zero-padded
to a field width of four characters, a minus sign counting toward the
width. -/
def formatPartSuffix (n : Int) : String :=
  if n < 0 then
    ".part" ++ "-" ++ zeroPad 3 (toString n.natAbs)
  else
    ".part" ++ zeroPad 4 (toString n.toNat)

/-- Modelled from the spec: the declared list of output files is renamed
when continuing without appending — `add_suffix_to_output_names`
(declared in gromacs/commandline/filenm.h, defined in filenm.cpp, which is
not among the sources under verification) gives every output entry's file
names the given suffix.  The suffix placement inside each name is kept
abstract via `applySuffixToName`, since only the renaming itself and its
ordering relative to opening the log file are claimed. -/
def applySuffixToName (name : String) (suffix : String) : String :=
  name ++ suffix

/-- Modelled from the spec: `add_suffix_to_output_names(fnm, nfile, suffix)`
rewrites the names of every output entry of `fnm`, leaving input entries
unchanged. -/
def add_suffix_to_output_names (fnm : List t_filenm) (suffix : String) : List t_filenm :=
  fnm.map fun f =>
    if f.is_output then
      { f with filenames := f.filenames.map (applySuffixToName · suffix) }
    else f

/-- Modelled from the spec: `ftp2fn(efLOG, nfile, fnm)` returns the
current first name of the entry whose file type is `efLOG`. -/
def ftp2fnLog (fnm : List t_filenm) : String :=
  match fnm.find? (fun f => f.ftp = efLOG) with
  | some f => f.filenames.headD ""
  | none => ""

/-- The handle returned by `openLogFile(filename, append)`: we record the
name it was opened under and the append flag. -/
structure LogFilePtr where
  filename : String
  appendFlag : Bool
deriving DecidableEq, Repr

/-- `openLogFile` from logging.h, modelled as recording its arguments. -/
def openLogFile (filename : String) (append : Bool) : LogFilePtr :=
  { filename := filename, appendFlag := append }

/-- Multi-simulation state consulted by the master block of
`handleRestart` (lines 496-505): whether several simulations run together
(`isMultiSim(ms)`) and whether their checkpoint `simulation_part` values
agree (`check_multi_int`, defined outside the sources under verification;
modelled from the spec: inconsistent simulation parts across simulation
groups are an error). -/
structure MultiSimState where
  isMultiSim : Bool
  simulationPartsAgree : Bool

/-- The master-only try block of `handleRestart` (handlerestart.cpp,
lines 489-523): choose the starting behavior; cross-check the simulation
part when multi-simulation; then either open the log for appending and
run `prepareForAppending`, or — after adding the `.partNNNN` suffix to
every output name when the decision is `RestartWithoutAppending` — open
the log file fresh.  Returns the decision, the log handle, and the
(possibly renamed) file-name list the rest of mdrun will use. -/
def handleRestartMasterPhase (appendingBehavior : AppendingBehavior)
    (fnm : List t_filenm) (env : Env) (ms : MultiSimState) (prepEnv : PrepEnv) :
    Except GmxError (StartingBehavior × LogFilePtr × List t_filenm) :=
  match chooseStartingBehavior appendingBehavior fnm env with
  | Except.error e => Except.error e
  | Except.ok (startingBehavior, headerContents, outputFiles) =>
    if ms.isMultiSim ∧ ¬ms.simulationPartsAgree then
      Except.error (GmxError.FatalError "The simulations are not all part of the same series")
    else if startingBehavior = StartingBehavior.RestartWithAppending then
      let logFileGuard := openLogFile (ftp2fnLog fnm) true
      match (prepareForAppending prepEnv outputFiles).2 with
      | some e => Except.error e
      | none => Except.ok (startingBehavior, logFileGuard, fnm)
    else
      let fnm2 :=
        if startingBehavior = StartingBehavior.RestartWithoutAppending then
          add_suffix_to_output_names fnm (formatPartSuffix (headerContents.simulation_part + 1))
        else fnm
      Except.ok (startingBehavior, openLogFile (ftp2fnLog fnm2) false, fnm2)

/-- True of lock and truncation events. -/
def isTruncateEvent : FileEvent → Bool
  | FileEvent.truncate _ _ => true
  | _ => false

/-- True of successful-validation events. -/
def isValidateEvent : FileEvent → Bool
  | FileEvent.validate _ => true
  | _ => false

/-- Whether some truncation event occurs strictly before some
validation event in a trace. -/
def truncateBeforeValidate : List FileEvent → Bool
  | [] => false
  | e :: rest => (isTruncateEvent e && rest.any isValidateEvent) || truncateBeforeValidate rest

/-- The two events `prepareForAppending`'s loop performs for one non-log
record when everything succeeds off Windows: validation, then truncation. -/
def recordEvents (f : gmx_file_position_t) : List FileEvent :=
  [FileEvent.validate f.filename, FileEvent.truncate f.filename f.offset]

/-- A command-line file table: a log file, one further output file, and
one input file. -/
def fnmEx : List t_filenm :=
  [{ ftp := efLOG, opt := "-g", is_output := true, filenames := ["run.log"] },
   { ftp := 1, opt := "-o", is_output := true, filenames := ["traj.trr"] },
   { ftp := 2, opt := "-s", is_output := false, filenames := ["topol.tpr"] }]

/-- Checkpoint records naming the two output files of `fnmEx`, with no
checksums requested. -/
def filesEx : List gmx_file_position_t :=
  [{ filename := "run.log", offset := 100, checksumSize := -1, checksum := [] },
   { filename := "traj.trr", offset := 200, checksumSize := -1, checksum := [] }]

/-- Environment in which the checkpoint is present and readable but the
output file `traj.trr` does not exist on disk. -/
def envMissing : Env :=
  { cpiSet := true
    checkpointFilename := "state.cpt"
    fexist := fun s => s == "state.cpt" || s == "run.log"
    openOk := true
    headerContents := { simulation_part := 4, file_version := 17, double_prec := false }
    outputFiles := filesEx
    logExtensionMatches := true
    hasSuffixFromNoAppend := fun _ => false
    gmxDouble := false }

/-- Checkpoint records in which `traj.trr` carries the negative-offset
large-file sentinel. -/
def filesNeg : List gmx_file_position_t :=
  [{ filename := "run.log", offset := 100, checksumSize := -1, checksum := [] },
   { filename := "traj.trr", offset := -5, checksumSize := -1, checksum := [] }]

/-- Environment in which every output file exists but `traj.trr` has a
negative checkpointed offset. -/
def envNegOffset : Env :=
  { envMissing with fexist := fun _ => true, outputFiles := filesNeg }

/-- Environment in which appending is otherwise possible but the
checkpoint was written by a double-precision build while the current
build is mixed precision. -/
def envPrecision : Env :=
  { envMissing with
      fexist := fun _ => true
      headerContents := { simulation_part := 4, file_version := 17, double_prec := true } }

/-- A record with `checksumSize = -1` (no checksum requested). -/
def recNoChecksum : gmx_file_position_t :=
  { filename := "ener.edr", offset := 50, checksumSize := -1, checksum := [] }

/-- Preparation environment in which every step succeeds: POSIX build,
lock acquired, every md5 read returns 8 bytes with digest `[1, 2, 3]`,
and seeks, opens and truncations all succeed. -/
def prepEnvEx : PrepEnv :=
  { gmxFahcore := false
    gmxNativeWindows := false
    lockResult := LockResult.success
    md5 := fun _ _ => (8, [1, 2, 3])
    seekOk := true
    openOk := fun _ => true
    truncateOk := fun _ => true }

/-- Three checkpoint records (log plus two others) whose checksums match
what `prepEnvEx.md5` computes. -/
def filesPrep : List gmx_file_position_t :=
  [{ filename := "run.log", offset := 100, checksumSize := 8, checksum := [1, 2, 3] },
   { filename := "traj.trr", offset := 200, checksumSize := 8, checksum := [1, 2, 3] },
   { filename := "ener.edr", offset := 300, checksumSize := 8, checksum := [1, 2, 3] }]

/-- Like `prepEnvEx`, except that the md5 digest computed for `ener.edr`
does not match its checkpoint record. -/
def prepEnvFail : PrepEnv :=
  { prepEnvEx with md5 := fun name _ => if name == "ener.edr" then (8, [9, 9, 9]) else (8, [1, 2, 3]) }

/-- A fourth record, after the failing one. -/
def recExtra : gmx_file_position_t :=
  { filename := "pullx.xvg", offset := 400, checksumSize := 8, checksum := [1, 2, 3] }

/-- A master rank whose deciding/preparing block raised. -/
def rankMasterEx : Rank :=
  { isMaster := true, tryResult := Except.error GmxError.CheckpointNotFoundError }

/-- A non-master rank. -/
def rankOtherEx : Rank :=
  { isMaster := false, tryResult := Except.ok StartingBehavior.NewSimulation }

/-- A two-rank group in which only the master raised. -/
def groupEx : List Rank := [rankMasterEx, rankOtherEx]

/-- Single-simulation multi-sim state. -/
def msEx : MultiSimState := { isMultiSim := false, simulationPartsAgree := true }

/-- The renamed file table produced for `fnmEx` when restarting without
appending from simulation part 4. -/
def fnmSuffixedEx : List t_filenm :=
  [{ ftp := efLOG, opt := "-g", is_output := true, filenames := ["run.log.part0005"] },
   { ftp := 1, opt := "-o", is_output := true, filenames := ["traj.trr.part0005"] },
   { ftp := 2, opt := "-s", is_output := false, filenames := ["topol.tpr"] }]

/-- The log handle opened in that scenario. -/
def logPtrEx : LogFilePtr := { filename := "run.log.part0005", appendFlag := false }

/-- Environment in which `-cpi` was given but the named checkpoint file
`state.cpt` does not exist. -/
def envNoCpt : Env :=
  { envMissing with fexist := fun s => s == "run.log" }

/-!  Theorems.  -/

/-- Helper: when `GMX_NATIVE_WINDOWS` is off and every record of `files`
opens, validates and truncates successfully, the loop of
`prepareForAppending` emits validation followed by truncation for each
record in order, and no error. -/
theorem prepareLoop_ok (env : PrepEnv) (hw : env.gmxNativeWindows = false) :
    ∀ files : List gmx_file_position_t,
      (∀ f ∈ files, env.openOk f.filename = true ∧
          checkOutputFile (env.md5 f.filename) f = Except.ok () ∧
          env.truncateOk f.filename = true) →
      prepareLoop env files = (files.flatMap recordEvents, none)
  | [], _ => by simp [prepareLoop]
  | f :: rest, h => by
    have hf := h f (List.mem_cons_self ..)
    have hrest := prepareLoop_ok env hw rest (fun g hg => h g (List.mem_cons_of_mem _ hg))
    simp [prepareLoop, hf.1, hf.2.1, hf.2.2, hw, hrest, recordEvents]

/-- Helper: when the records of `pre` all succeed and validation of `f`
fails with `e`, the loop truncates exactly the records of `pre` and stops
with `e`, never reaching `f`'s truncation or any record of `post`. -/
theorem prepareLoop_validation_fail (env : PrepEnv) (hw : env.gmxNativeWindows = false)
    (e : GmxError) :
    ∀ (pre : List gmx_file_position_t) (f : gmx_file_position_t)
      (post : List gmx_file_position_t),
      (∀ g ∈ pre, env.openOk g.filename = true ∧
          checkOutputFile (env.md5 g.filename) g = Except.ok () ∧
          env.truncateOk g.filename = true) →
      env.openOk f.filename = true →
      checkOutputFile (env.md5 f.filename) f = Except.error e →
      prepareLoop env (pre ++ f :: post) = (pre.flatMap recordEvents, some e)
  | [], f, post, _, hopen, hfail => by simp [prepareLoop, hopen, hfail]
  | g :: pre, f, post, h, hopen, hfail => by
    have hg := h g (List.mem_cons_self ..)
    have ih := prepareLoop_validation_fail env hw e pre f post
      (fun x hx => h x (List.mem_cons_of_mem _ hx)) hopen hfail
    simp [prepareLoop, hg.1, hg.2.1, hg.2.2, hw, ih, recordEvents]

/-- Claim C4: if `-cpi` is given but the named checkpoint file does not
exist, `chooseStartingBehavior` returns `NewSimulation` under
`NoAppending` or `Auto`, and raises the configuration error
(`CheckpointNotFoundError`, an `InconsistentInputError` in the source)
under `Appending` — it never returns `RestartWithAppending` and never
silently returns `NewSimulation` under `Appending`. -/
theorem chooseStartingBehavior_checkpointAbsent (ab : AppendingBehavior)
    (fnm : List t_filenm) (env : Env)
    (hcpi : env.cpiSet = true)
    (hex : env.fexist env.checkpointFilename = false) :
    (ab = AppendingBehavior.Appending →
      chooseStartingBehavior ab fnm env = Except.error GmxError.CheckpointNotFoundError) ∧
    (ab ≠ AppendingBehavior.Appending →
      chooseStartingBehavior ab fnm env =
        Except.ok (StartingBehavior.NewSimulation, emptyHeaderContents, [])) := by
  constructor <;> intro hab <;> simp [chooseStartingBehavior, hcpi, hex, hab]

/-- Witness for C4 at a concrete input: `-cpi state.cpt` with
`state.cpt` absent. -/
theorem chooseStartingBehavior_checkpointAbsent_witness :
    envNoCpt.cpiSet = true ∧
    envNoCpt.fexist envNoCpt.checkpointFilename = false ∧
    chooseStartingBehavior AppendingBehavior.Appending fnmEx envNoCpt =
      Except.error GmxError.CheckpointNotFoundError ∧
    chooseStartingBehavior AppendingBehavior.Auto fnmEx envNoCpt =
      Except.ok (StartingBehavior.NewSimulation, emptyHeaderContents, []) :=
  ⟨rfl, rfl,
    (chooseStartingBehavior_checkpointAbsent AppendingBehavior.Appending fnmEx envNoCpt rfl rfl).1 rfl,
    (chooseStartingBehavior_checkpointAbsent AppendingBehavior.Auto fnmEx envNoCpt rfl rfl).2
      (by decide)⟩

/-- Claim C6: for every record with `checksumSize = -1`, `checkOutputFile`
succeeds regardless of the file's contents — the md5 collaborator `md5`
is universally quantified, so neither a read nor a digest comparison can
influence the result, and no error is raised. -/
theorem checkOutputFile_noChecksumRequested (md5 : Int → Int × List Nat)
    (f : gmx_file_position_t) (h : f.checksumSize = -1) :
    checkOutputFile md5 f = Except.ok () := by
  simp [checkOutputFile, h]

/-- Witness for C6 at a concrete input: the digest the collaborator
would compute disagrees with the record, yet validation succeeds because
no checksum was requested. -/
theorem checkOutputFile_noChecksumRequested_witness :
    recNoChecksum.checksumSize = -1 ∧
    checkOutputFile (fun _ => (16, [9, 9, 9])) recNoChecksum = Except.ok () :=
  ⟨rfl, checkOutputFile_noChecksumRequested (fun _ => (16, [9, 9, 9])) recNoChecksum rfl⟩

/-- Helper: the fall-through return does not produce the logic-error
assertion when the behavior is not `Appending`. -/
theorem fallThroughReturn_no_logic_error (ab : AppendingBehavior)
    (h : CheckpointHeaderContents) (fs : List gmx_file_position_t)
    (hab : ab ≠ AppendingBehavior.Appending) :
    fallThroughReturn ab h fs ≠
      Except.error (GmxError.AssertionFailure "Logic error in appending") := by
  simp [fallThroughReturn, hab]

/-- Helper: the appendability evaluation never produces the logic-error
assertion — under `Appending` every non-success branch raises before
reaching the fall-through, and otherwise the fall-through guard holds. -/
theorem evaluateAppendability_no_logic_error (ab : AppendingBehavior)
    (fnm : List t_filenm) (env : Env) (logFilename : String) :
    evaluateAppendability ab fnm env logFilename ≠
      Except.error (GmxError.AssertionFailure "Logic error in appending") := by
  unfold evaluateAppendability
  by_cases hab : ab = AppendingBehavior.Appending
  · subst hab
    (repeat' split) <;> simp_all [fallThroughReturn]
  · (repeat' split) <;> simp_all [fallThroughReturn, hab]

/-- Claim C9: the release assertion guarding the final fall-through of
`chooseStartingBehavior` never fires: on no input does the function
produce the "Logic error in appending" assertion failure, because every
path that reaches the fall-through has `appendingBehavior` equal to
`NoAppending` or `Auto`. -/
theorem chooseStartingBehavior_assert_never_fires (ab : AppendingBehavior)
    (fnm : List t_filenm) (env : Env) :
    chooseStartingBehavior ab fnm env ≠
      Except.error (GmxError.AssertionFailure "Logic error in appending") := by
  unfold chooseStartingBehavior
  (repeat' split) <;>
    first
      | exact evaluateAppendability_no_logic_error _ _ _ _
      | (apply fallThroughReturn_no_logic_error
         simp_all)
      | simp

/-- Counterexample to C1 as stated: with the checkpoint present and the
output file `traj.trr` missing from disk, `chooseStartingBehavior` under
`AppendingBehavior.Auto` does NOT fall through to
`RestartWithoutAppending` — it raises the present-versus-missing error,
because the missing-file check (line 236) sits inside the
`appendingBehavior != NoAppending` block with no further guard on
`Appending`. -/
theorem chooseStartingBehavior_auto_missing_counterexample :
    chooseStartingBehavior AppendingBehavior.Auto fnmEx envMissing =
      Except.error (GmxError.MissingOutputFilesError "state.cpt"
        ["run.log"] ["traj.trr"]) := by
  rfl

/-- Claim C1 as amended: with the checkpoint present and some output file
missing, `chooseStartingBehavior` raises the error listing present versus
missing files whenever `AppendingBehavior` is `Appending` OR `Auto`; only
under `NoAppending` is the check skipped, falling through to
`RestartWithoutAppending` without error. -/
theorem chooseStartingBehavior_missing_files (ab : AppendingBehavior)
    (fnm : List t_filenm) (env : Env)
    (logRecord : gmx_file_position_t) (rest : List gmx_file_position_t)
    (hcpi : env.cpiSet = true)
    (hex : env.fexist env.checkpointFilename = true)
    (hopen : env.openOk = true)
    (hfiles : env.outputFiles = logRecord :: rest)
    (hlog : env.logExtensionMatches = true)
    (hmiss : numFilesMissing env.outputFiles fnm env.fexist ≠ 0) :
    (ab ≠ AppendingBehavior.NoAppending →
      chooseStartingBehavior ab fnm env =
        Except.error (GmxError.MissingOutputFilesError env.checkpointFilename
          (presentOutputFiles env.outputFiles fnm env.fexist)
          (missingOutputFiles env.outputFiles fnm env.fexist))) ∧
    (ab = AppendingBehavior.NoAppending →
      chooseStartingBehavior ab fnm env =
        Except.ok (StartingBehavior.RestartWithoutAppending, env.headerContents,
          env.outputFiles)) := by
  constructor
  · intro hab
    have hmiss' : numFilesMissing (logRecord :: rest) fnm env.fexist ≠ 0 := hfiles ▸ hmiss
    simp [chooseStartingBehavior, hcpi, hex, hopen, hfiles, hlog, hab,
      evaluateAppendability, hmiss']
  · intro hab
    subst hab
    simp [chooseStartingBehavior, hcpi, hex, hopen, hfiles, hlog, fallThroughReturn]

/-- Witness for the amended C1 at a concrete input, under `Appending`. -/
theorem chooseStartingBehavior_missing_files_witness :
    numFilesMissing envMissing.outputFiles fnmEx envMissing.fexist ≠ 0 ∧
    chooseStartingBehavior AppendingBehavior.Appending fnmEx envMissing =
      Except.error (GmxError.MissingOutputFilesError envMissing.checkpointFilename
        (presentOutputFiles envMissing.outputFiles fnmEx envMissing.fexist)
        (missingOutputFiles envMissing.outputFiles fnmEx envMissing.fexist)) :=
  ⟨by decide,
    (chooseStartingBehavior_missing_files AppendingBehavior.Appending fnmEx envMissing
      _ _ rfl rfl rfl rfl rfl (by decide)).1 (by decide)⟩

/-- Counterexample to C2 as stated: with all output files present but
`traj.trr` carrying the negative-offset large-file sentinel,
`chooseStartingBehavior` under `AppendingBehavior.Auto` does NOT fall
through to `RestartWithoutAppending` — it raises the large-file error,
because the negative-offset loop (line 249) sits inside the
`appendingBehavior != NoAppending` block with no further guard on
`Appending`. -/
theorem chooseStartingBehavior_auto_negOffset_counterexample :
    chooseStartingBehavior AppendingBehavior.Auto fnmEx envNegOffset =
      Except.error (GmxError.LargeFileError "traj.trr") := by
  rfl

/-- Claim C2 as amended: with the checkpoint present, no file missing,
and some record carrying a negative offset, `chooseStartingBehavior`
raises the large-file error (naming the first such record) whenever
`AppendingBehavior` is `Appending` OR `Auto`; only under `NoAppending`
is the check skipped, falling through to `RestartWithoutAppending`
without error. -/
theorem chooseStartingBehavior_negative_offset (ab : AppendingBehavior)
    (fnm : List t_filenm) (env : Env)
    (logRecord o : gmx_file_position_t) (rest : List gmx_file_position_t)
    (hcpi : env.cpiSet = true)
    (hex : env.fexist env.checkpointFilename = true)
    (hopen : env.openOk = true)
    (hfiles : env.outputFiles = logRecord :: rest)
    (hlog : env.logExtensionMatches = true)
    (hmiss : numFilesMissing env.outputFiles fnm env.fexist = 0)
    (hneg : env.outputFiles.find? (fun o => o.offset < 0) = some o) :
    (ab ≠ AppendingBehavior.NoAppending →
      chooseStartingBehavior ab fnm env =
        Except.error (GmxError.LargeFileError o.filename)) ∧
    (ab = AppendingBehavior.NoAppending →
      chooseStartingBehavior ab fnm env =
        Except.ok (StartingBehavior.RestartWithoutAppending, env.headerContents,
          env.outputFiles)) := by
  constructor
  · intro hab
    have hmiss' : numFilesMissing (logRecord :: rest) fnm env.fexist = 0 := hfiles ▸ hmiss
    have hneg' : (logRecord :: rest).find? (fun o => o.offset < 0) = some o := hfiles ▸ hneg
    simp [chooseStartingBehavior, hcpi, hex, hopen, hfiles, hlog, hab,
      evaluateAppendability, hmiss', hneg']
  · intro hab
    subst hab
    simp [chooseStartingBehavior, hcpi, hex, hopen, hfiles, hlog, fallThroughReturn]

/-- Witness for the amended C2 at a concrete input, under `Appending`. -/
theorem chooseStartingBehavior_negative_offset_witness :
    numFilesMissing envNegOffset.outputFiles fnmEx envNegOffset.fexist = 0 ∧
    envNegOffset.outputFiles.find? (fun o => decide (o.offset < 0)) =
      some ({ filename := "traj.trr", offset := -5, checksumSize := -1, checksum := [] } : gmx_file_position_t) ∧
    chooseStartingBehavior AppendingBehavior.Appending fnmEx envNegOffset =
      Except.error (GmxError.LargeFileError "traj.trr") :=
  ⟨by decide, by rfl,
    (chooseStartingBehavior_negative_offset AppendingBehavior.Appending fnmEx envNegOffset
      { filename := "run.log", offset := 100, checksumSize := -1, checksum := [] }
      { filename := "traj.trr", offset := -5, checksumSize := -1, checksum := [] }
      [{ filename := "traj.trr", offset := -5, checksumSize := -1, checksum := [] }]
      rfl rfl rfl rfl rfl (by decide) (by rfl)).1 (by decide)⟩

/-- Claim C5: with the checkpoint present, all output files accounted
for, no negative offsets, `file_version ≥ 13` and a precision flag that
differs from the build's, `chooseStartingBehavior` raises the
configuration error under `Appending` and returns
`RestartWithoutAppending` (with no error and, being a pure decision,
touching no files) under `Auto`. -/
theorem chooseStartingBehavior_precision_mismatch (ab : AppendingBehavior)
    (fnm : List t_filenm) (env : Env)
    (logRecord : gmx_file_position_t) (rest : List gmx_file_position_t)
    (hcpi : env.cpiSet = true)
    (hex : env.fexist env.checkpointFilename = true)
    (hopen : env.openOk = true)
    (hfiles : env.outputFiles = logRecord :: rest)
    (hlog : env.logExtensionMatches = true)
    (hmiss : numFilesMissing env.outputFiles fnm env.fexist = 0)
    (hneg : env.outputFiles.find? (fun o => o.offset < 0) = none)
    (hver : env.headerContents.file_version ≥ 13)
    (hprec : env.headerContents.double_prec ≠ env.gmxDouble) :
    (ab = AppendingBehavior.Appending →
      chooseStartingBehavior ab fnm env =
        Except.error (GmxError.PrecisionMismatchError env.headerContents.double_prec
          env.gmxDouble)) ∧
    (ab = AppendingBehavior.Auto →
      chooseStartingBehavior ab fnm env =
        Except.ok (StartingBehavior.RestartWithoutAppending, env.headerContents,
          env.outputFiles)) := by
  have hmiss' : numFilesMissing (logRecord :: rest) fnm env.fexist = 0 := hfiles ▸ hmiss
  have hneg' : (logRecord :: rest).find? (fun o => o.offset < 0) = none := hfiles ▸ hneg
  constructor <;> intro hab <;> subst hab <;>
    simp [chooseStartingBehavior, hcpi, hex, hopen, hfiles, hlog,
      evaluateAppendability, hmiss', hneg', hver, hprec, fallThroughReturn]

/-- Witness for C5 at a concrete input: double-precision checkpoint,
mixed-precision build, `Auto` behavior. -/
theorem chooseStartingBehavior_precision_mismatch_witness :
    envPrecision.headerContents.file_version ≥ 13 ∧
    envPrecision.headerContents.double_prec ≠ envPrecision.gmxDouble ∧
    chooseStartingBehavior AppendingBehavior.Auto fnmEx envPrecision =
      Except.ok (StartingBehavior.RestartWithoutAppending, envPrecision.headerContents,
        envPrecision.outputFiles) :=
  ⟨by decide, by decide,
    (chooseStartingBehavior_precision_mismatch AppendingBehavior.Auto fnmEx envPrecision
      _ _ rfl rfl rfl rfl rfl (by decide) (by decide) (by decide) (by decide)).2 rfl⟩

/-- Counterexample to C3 as stated: a fully successful
`prepareForAppending` run over three records (log plus two others), in
which the truncation of `traj.trr` happens strictly before the
validation of `ener.edr` — so validation of every file does NOT complete
before any truncation begins; validation and truncation are interleaved
per file. -/
theorem prepareForAppending_order_counterexample :
    (prepareForAppending prepEnvEx filesPrep).2 = none ∧
    truncateBeforeValidate (prepareForAppending prepEnvEx filesPrep).1 = true := by
  constructor <;> rfl

/-- Claim C3 as amended: on a fully successful run (POSIX build, lock
acquired, every validation and truncation succeeding), the trace of
`prepareForAppending` is exactly: lock the log file, validate the log
file, seek the log handle — the log file (record 0) always being the
first file validated and locked — followed, for each remaining record in
order, by its validation immediately before its own truncation.  Each
file is thus validated strictly before its own truncation, but
truncation of an earlier record precedes validation of a later one. -/
theorem prepareForAppending_order (env : PrepEnv)
    (logRecord : gmx_file_position_t) (rest : List gmx_file_position_t)
    (hfah : env.gmxFahcore = false) (hw : env.gmxNativeWindows = false)
    (hlock : env.lockResult = LockResult.success)
    (hlogcheck : checkOutputFile (env.md5 logRecord.filename) logRecord = Except.ok ())
    (hseek : env.seekOk = true)
    (hrest : ∀ f ∈ rest, env.openOk f.filename = true ∧
        checkOutputFile (env.md5 f.filename) f = Except.ok () ∧
        env.truncateOk f.filename = true) :
    prepareForAppending env (logRecord :: rest) =
      (FileEvent.lock logRecord.filename :: FileEvent.validate logRecord.filename ::
        FileEvent.seekLog logRecord.filename logRecord.offset ::
        rest.flatMap recordEvents, none) := by
  simp [prepareForAppending, hfah, hlock, lockLogFile, hlogcheck, hseek,
    prepareLoop_ok env hw rest hrest]

/-- Witness for the amended C3 at a concrete input. -/
theorem prepareForAppending_order_witness :
    (∀ f ∈ [({ filename := "traj.trr", offset := 200, checksumSize := 8, checksum := [1, 2, 3] } : gmx_file_position_t),
            { filename := "ener.edr", offset := 300, checksumSize := 8, checksum := [1, 2, 3] }],
        prepEnvEx.openOk f.filename = true ∧
        checkOutputFile (prepEnvEx.md5 f.filename) f = Except.ok () ∧
        prepEnvEx.truncateOk f.filename = true) ∧
    prepareForAppending prepEnvEx filesPrep =
      (FileEvent.lock "run.log" :: FileEvent.validate "run.log" ::
        FileEvent.seekLog "run.log" 100 ::
        [({ filename := "traj.trr", offset := 200, checksumSize := 8, checksum := [1, 2, 3] } : gmx_file_position_t),
         { filename := "ener.edr", offset := 300, checksumSize := 8, checksum := [1, 2, 3] }].flatMap recordEvents,
        none) :=
  ⟨by decide,
    prepareForAppending_order prepEnvEx
      { filename := "run.log", offset := 100, checksumSize := 8, checksum := [1, 2, 3] }
      [{ filename := "traj.trr", offset := 200, checksumSize := 8, checksum := [1, 2, 3] },
       { filename := "ener.edr", offset := 300, checksumSize := 8, checksum := [1, 2, 3] }]
      rfl rfl rfl (by rfl) rfl (by decide)⟩

/-- Claim C7: if validation of the record at index `k` (the failing
record `f`, preceded by the successfully handled records `pre`) fails,
the trace of `prepareForAppending` is exactly the log lock/validate/seek
followed by the validate-truncate pairs of `pre`, and the run stops with
the validation error: no truncation of any record at index `≥ k` occurs
— every truncation in the trace belongs to a record of `pre` — while
each record of `pre` remains truncated (its truncation event is in the
trace, with no rollback), and each non-log record is validated before
its own truncation. -/
theorem prepareForAppending_validation_fault (env : PrepEnv)
    (logRecord f : gmx_file_position_t) (pre post : List gmx_file_position_t)
    (e : GmxError)
    (hfah : env.gmxFahcore = false) (hw : env.gmxNativeWindows = false)
    (hlock : env.lockResult = LockResult.success)
    (hlogcheck : checkOutputFile (env.md5 logRecord.filename) logRecord = Except.ok ())
    (hseek : env.seekOk = true)
    (hpre : ∀ g ∈ pre, env.openOk g.filename = true ∧
        checkOutputFile (env.md5 g.filename) g = Except.ok () ∧
        env.truncateOk g.filename = true)
    (hopen : env.openOk f.filename = true)
    (hfail : checkOutputFile (env.md5 f.filename) f = Except.error e) :
    prepareForAppending env (logRecord :: (pre ++ f :: post)) =
      (FileEvent.lock logRecord.filename :: FileEvent.validate logRecord.filename ::
        FileEvent.seekLog logRecord.filename logRecord.offset ::
        pre.flatMap recordEvents, some e) ∧
    (∀ ev ∈ (prepareForAppending env (logRecord :: (pre ++ f :: post))).1,
        isTruncateEvent ev = true →
          ∃ g ∈ pre, ev = FileEvent.truncate g.filename g.offset) ∧
    (∀ g ∈ pre, FileEvent.truncate g.filename g.offset ∈
        (prepareForAppending env (logRecord :: (pre ++ f :: post))).1) := by
  have htrace : prepareForAppending env (logRecord :: (pre ++ f :: post)) =
      (FileEvent.lock logRecord.filename :: FileEvent.validate logRecord.filename ::
        FileEvent.seekLog logRecord.filename logRecord.offset ::
        pre.flatMap recordEvents, some e) := by
    simp [prepareForAppending, hfah, hlock, lockLogFile, hlogcheck, hseek,
      prepareLoop_validation_fail env hw e pre f post hpre hopen hfail]
  refine ⟨htrace, ?_, ?_⟩
  · intro ev hev htr
    rw [htrace] at hev
    simp only [List.mem_cons] at hev
    rcases hev with h1 | h1 | h1 | h1
    · subst h1; simp [isTruncateEvent] at htr
    · subst h1; simp [isTruncateEvent] at htr
    · subst h1; simp [isTruncateEvent] at htr
    · rcases List.mem_flatMap.mp h1 with ⟨g, hg, hmem⟩
      simp only [recordEvents, List.mem_cons, List.not_mem_nil, or_false] at hmem
      rcases hmem with h2 | h2
      · subst h2; simp [isTruncateEvent] at htr
      · exact ⟨g, hg, h2⟩
  · intro g hg
    rw [htrace]
    simp only [List.mem_cons]
    right; right; right
    exact List.mem_flatMap.mpr ⟨g, hg, by simp [recordEvents]⟩

/-- Witness for C7 at a concrete input: the third record's checksum
mismatches; the log and `traj.trr` are processed, `traj.trr` stays
truncated, and neither `ener.edr` nor the following record is
truncated. -/
theorem prepareForAppending_validation_fault_witness :
    checkOutputFile (prepEnvFail.md5 "ener.edr")
        { filename := "ener.edr", offset := 300, checksumSize := 8, checksum := [1, 2, 3] } =
      Except.error (GmxError.ChecksumMismatchError "ener.edr") ∧
    prepareForAppending prepEnvFail
        ({ filename := "run.log", offset := 100, checksumSize := 8, checksum := [1, 2, 3] } ::
          ([{ filename := "traj.trr", offset := 200, checksumSize := 8, checksum := [1, 2, 3] }] ++
            { filename := "ener.edr", offset := 300, checksumSize := 8, checksum := [1, 2, 3] } :: [recExtra])) =
      (FileEvent.lock "run.log" :: FileEvent.validate "run.log" ::
        FileEvent.seekLog "run.log" 100 ::
        [({ filename := "traj.trr", offset := 200, checksumSize := 8, checksum := [1, 2, 3] } : gmx_file_position_t)].flatMap recordEvents,
        some (GmxError.ChecksumMismatchError "ener.edr")) :=
  ⟨by rfl,
    (prepareForAppending_validation_fault prepEnvFail
      { filename := "run.log", offset := 100, checksumSize := 8, checksum := [1, 2, 3] }
      { filename := "ener.edr", offset := 300, checksumSize := 8, checksum := [1, 2, 3] }
      [{ filename := "traj.trr", offset := 200, checksumSize := 8, checksum := [1, 2, 3] }]
      [recExtra]
      (GmxError.ChecksumMismatchError "ener.edr")
      rfl rfl rfl (by rfl) rfl (by decide) rfl (by rfl)).1⟩

/-- Claim C8: an error raised during the master-only deciding/preparing
phase is caught locally and becomes a local error count of 1 (never an
escaping exception); whenever the combined cross-process error count is
nonzero, every rank's coordinated outcome is an error — the rank that
originally raised re-raises its specific exception, every rank without a
stored exception raises the generic cooperating-process-failed error —
so no rank ever returns a committed `StartingBehavior`. -/
theorem handleRestart_coordinated_abort (group : List Rank) (r : Rank)
    (d : StartingBehavior) (_hmem : r ∈ group)
    (herr : combinedErrorCount group ≠ 0) :
    (r.isMaster = true → ∀ e, r.tryResult = Except.error e →
      localErrorCount r = 1 ∧ handleRestartOutcome group r d = Except.error e) ∧
    (localExceptionPtr r = none →
      handleRestartOutcome group r d =
        Except.error (GmxError.ParallelConsistencyError
          "Another MPI rank encountered an exception")) ∧
    (∀ s, handleRestartOutcome group r d ≠ Except.ok s) := by
  have hpos : combinedErrorCount group > 0 := Nat.pos_of_ne_zero herr
  refine ⟨?_, ?_, ?_⟩
  · intro hm e he
    constructor
    · simp [localErrorCount, hm, he]
    · simp [handleRestartOutcome, hpos, localExceptionPtr, hm, he]
  · intro hnone
    simp [handleRestartOutcome, hpos, hnone]
  · intro s
    simp only [handleRestartOutcome, if_pos hpos]
    cases localExceptionPtr r <;> simp

/-- Witness for C8 at a concrete input: a two-rank group in which only
the master raised; the master re-raises its specific error and the other
rank raises the generic error. -/
theorem handleRestart_coordinated_abort_witness :
    combinedErrorCount groupEx ≠ 0 ∧
    handleRestartOutcome groupEx rankMasterEx StartingBehavior.NewSimulation =
      Except.error GmxError.CheckpointNotFoundError ∧
    handleRestartOutcome groupEx rankOtherEx StartingBehavior.NewSimulation =
      Except.error (GmxError.ParallelConsistencyError
        "Another MPI rank encountered an exception") := by
  refine ⟨by decide, ?_, ?_⟩
  · exact ((handleRestart_coordinated_abort groupEx rankMasterEx
      StartingBehavior.NewSimulation (List.mem_cons_self ..) (by decide)).1 rfl
      GmxError.CheckpointNotFoundError rfl).2
  · exact (handleRestart_coordinated_abort groupEx rankOtherEx
      StartingBehavior.NewSimulation
      (List.mem_cons_of_mem _ (List.mem_cons_self ..)) (by decide)).2.1 rfl

/-- Helper: whatever header the fall-through return succeeds with is the
header it was given. -/
theorem fallThroughReturn_header (ab : AppendingBehavior)
    (h0 : CheckpointHeaderContents) (fs0 : List gmx_file_position_t)
    (sb : StartingBehavior) (h : CheckpointHeaderContents)
    (fs : List gmx_file_position_t)
    (hok : fallThroughReturn ab h0 fs0 = Except.ok (sb, h, fs)) : h = h0 := by
  unfold fallThroughReturn at hok
  split at hok <;> simp_all

/-- Helper: a `RestartWithoutAppending` decision out of the appendability
evaluation carries the header read from the checkpoint. -/
theorem evaluateAppendability_withoutAppending_header (ab : AppendingBehavior)
    (fnm : List t_filenm) (env : Env) (lf : String)
    (h : CheckpointHeaderContents) (fs : List gmx_file_position_t)
    (hok : evaluateAppendability ab fnm env lf =
      Except.ok (StartingBehavior.RestartWithoutAppending, h, fs)) :
    h = env.headerContents := by
  unfold evaluateAppendability at hok
  (repeat' split at hok) <;>
    solve
      | exact fallThroughReturn_header _ _ _ _ _ _ hok
      | simp_all

/-- Helper: a `RestartWithoutAppending` decision is produced only by the
final fall-through of `chooseStartingBehavior`, which returns the header
read from the checkpoint. -/
theorem chooseStartingBehavior_withoutAppending_header (ab : AppendingBehavior)
    (fnm : List t_filenm) (env : Env)
    (h : CheckpointHeaderContents) (fs : List gmx_file_position_t)
    (hok : chooseStartingBehavior ab fnm env =
      Except.ok (StartingBehavior.RestartWithoutAppending, h, fs)) :
    h = env.headerContents := by
  unfold chooseStartingBehavior at hok
  (repeat' split at hok) <;>
    solve
      | exact evaluateAppendability_withoutAppending_header _ _ _ _ _ _ hok
      | exact fallThroughReturn_header _ _ _ _ _ _ hok
      | simp_all

/-- Claim C10: whenever the master phase of `handleRestart` returns with
the decision `RestartWithoutAppending`, the file-name list it hands on is
the input list with the suffix `".part%04d"` of `simulation_part + 1`
(zero-padded to four digits by `formatPartSuffix`) applied to every
output name by `add_suffix_to_output_names`, and this renaming happens
before the log file is opened: the returned log handle is opened under
the log file's name as looked up in the renamed list. -/
theorem handleRestart_noappend_renames (ab : AppendingBehavior)
    (fnm : List t_filenm) (env : Env) (ms : MultiSimState) (prepEnv : PrepEnv)
    (logPtr : LogFilePtr) (fnm2 : List t_filenm)
    (hok : handleRestartMasterPhase ab fnm env ms prepEnv =
      Except.ok (StartingBehavior.RestartWithoutAppending, logPtr, fnm2)) :
    fnm2 = add_suffix_to_output_names fnm
      (formatPartSuffix (env.headerContents.simulation_part + 1)) ∧
    logPtr = openLogFile (ftp2fnLog fnm2) false := by
  unfold handleRestartMasterPhase at hok
  cases hchoose : chooseStartingBehavior ab fnm env with
  | error e => rw [hchoose] at hok; simp at hok
  | ok res =>
    obtain ⟨sb, h, fs⟩ := res
    rw [hchoose] at hok
    dsimp only at hok
    by_cases hms : ms.isMultiSim ∧ ¬ms.simulationPartsAgree
    · rw [if_pos hms] at hok; simp at hok
    · rw [if_neg hms] at hok
      by_cases hsb : sb = StartingBehavior.RestartWithAppending
      · rw [if_pos hsb] at hok
        cases hprep : (prepareForAppending prepEnv fs).2 with
        | some e => rw [hprep] at hok; simp at hok
        | none => rw [hprep] at hok; simp [hsb] at hok
      · rw [if_neg hsb] at hok
        simp only [Except.ok.injEq, Prod.mk.injEq] at hok
        obtain ⟨hsb2, hlog, hfnm⟩ := hok
        subst hsb2
        simp only [if_pos rfl] at hlog hfnm
        have hh : h = env.headerContents :=
          chooseStartingBehavior_withoutAppending_header ab fnm env h fs hchoose
        subst hh
        exact ⟨hfnm.symm, by rw [← hlog, ← hfnm]⟩

/-- Witness for C10 at a concrete input: `-noappend` restart from
simulation part 4 renames `run.log` to `run.log.part0005` and
`traj.trr` to `traj.trr.part0005` before the log is opened. -/
theorem handleRestart_noappend_renames_witness :
    handleRestartMasterPhase AppendingBehavior.NoAppending fnmEx envMissing msEx prepEnvEx =
      Except.ok (StartingBehavior.RestartWithoutAppending, logPtrEx, fnmSuffixedEx) ∧
    (fnmSuffixedEx = add_suffix_to_output_names fnmEx
        (formatPartSuffix (envMissing.headerContents.simulation_part + 1)) ∧
      logPtrEx = openLogFile (ftp2fnLog fnmSuffixedEx) false) :=
  ⟨by rfl,
    handleRestart_noappend_renames AppendingBehavior.NoAppending fnmEx envMissing
      msEx prepEnvEx logPtrEx fnmSuffixedEx (by rfl)⟩

end HandleRestart
